import Mathlib

/-!
Verification of the export-task subsystem (`src/internal/manager/task_export.go`)
of the stash repository.

The Go source is shallowly embedded: each Go function that a claim depends on
becomes a Lean definition, with external collaborators (repository fetches,
filesystem, zip writer, download registry) modelled as explicit parameters.
Fallible operations are modelled with `Except String`/`Option`, and log-only
errors are modelled by continuing exactly as the source does.
-/

set_option autoImplicit false

namespace Stash

/-- `exportSpec` (task_export.go:71-74): one per-entity-type selector holding
an explicit id set and an `all` flag. -/
structure exportSpec where
  IDs : List Int
  all : Bool
deriving DecidableEq, Repr

/-- `ExportObjectTypeInput` (task_export.go:55-58): raw caller input for one
entity type, with string ids and an optional `all` flag. -/
structure ExportObjectTypeInput where
  Ids : List String
  All : Option Bool
deriving DecidableEq, Repr

/-- Modelled from the spec: the integer parsing of one id string (Go's
`strconv.Atoi`, external standard library): an optional sign followed by one
or more decimal digits; anything else does not parse. -/
def parseIntString (s : String) : Option Int :=
  let chars := s.data
  let core : Bool × List Char :=
    match chars with
    | '-' :: rest => (true, rest)
    | '+' :: rest => (false, rest)
    | _ => (false, chars)
  let digits := core.2
  if digits = [] then none
  else if digits.all (fun c => c.isDigit) then
    let n := digits.foldl (fun acc c => acc * 10 + (c.toNat - '0'.toNat)) 0
    some (if core.1 then -(n : Int) else (n : Int))
  else none

/-- Modelled from the spec: `stringslice.StringSliceToIntSlice`
(pkg/sliceutil/stringslice, not under src/). The spec only says selectors are
"derived from caller input" (§3); modelled as integer parsing of each id
string, with strings that do not parse as an integer contributing nothing to
the id list, and a conversion error signalled alongside (the caller at
task_export.go:81 discards the error). -/
def StringSliceToIntSlice (ss : List String) : List Int × Option String :=
  (ss.filterMap parseIntString,
   if ss.all (fun s => (parseIntString s).isSome) then none else some "conversion error")

/-- `newExportSpec` (task_export.go:76-92): builds a selector from the raw
input; a `nil` input yields the zero-value selector; the id-conversion error
is discarded (`ids, _ := ...`); a missing `All` leaves `all` false. -/
def newExportSpec (input : Option ExportObjectTypeInput) : exportSpec :=
  match input with
  | none => { IDs := [], all := false }
  | some inp =>
    let ids := (StringSliceToIntSlice inp.Ids).1
    { IDs := ids,
      all := match inp.All with
             | some b => b
             | none => false }

/-- The task state relevant to the claims: the seven selectors plus the two
flags (`ExportTask`, task_export.go:33-53). Paths/json utilities are modelled
separately. -/
structure ExportTask where
  full : Bool
  includeDependencies : Bool
  scenes : exportSpec
  images : exportSpec
  performers : exportSpec
  movies : exportSpec
  tags : exportSpec
  studios : exportSpec
  galleries : exportSpec
deriving DecidableEq, Repr

/-- Modelled from the spec: `sliceutil.AppendUnique` (pkg/sliceutil, not under
src/) — the deduplicating append used to "union their ids into the ... selector
(deduplicated, order-irrelevant)" (spec §4.2). -/
def AppendUnique (l : List Int) (x : Int) : List Int :=
  if x ∈ l then l else l ++ [x]

/-- The JSON output directories of the export tree. Modelled from the spec:
`paths.GetJSONPaths` (pkg/models/paths, not under src/) — "seven top-level
directories (one per entity type) ... plus shared `files`/`folders`
directories" (spec §6). A directory is identified by this tag; the actual
path is the base directory joined with `relDirName`. -/
inductive JDir where
  | scenes
  | images
  | galleries
  | movies
  | performers
  | studios
  | tags
  | files
  | folders
deriving DecidableEq, Repr

/-- The relative name of each JSON output directory (the path produced by
`paths.GetJSONPaths("")`, used as the zip entry directory at
task_export.go:217-227). -/
def relDirName : JDir → String
  | .scenes => "scenes"
  | .images => "images"
  | .galleries => "galleries"
  | .movies => "movies"
  | .performers => "performers"
  | .studios => "studios"
  | .tags => "tags"
  | .files => "files"
  | .folders => "folders"

/-- One file written into the export output tree: its directory and its base
name. -/
abbrev Write := JDir × String

/-- The observable steps of the transaction body of `Start`
(task_export.go:151-173): the two pre-expansions and the seven pools. -/
inductive Event where
  | popMovieScenes
  | popGalleryImages
  | poolScenes
  | poolImages
  | poolGalleries
  | poolMovies
  | poolPerformers
  | poolStudios
  | poolTags
deriving DecidableEq, Repr

/-- The sequence of steps executed by the transaction body of `Start`
(task_export.go:151-173), in program order: for a non-full export,
`populateMovieScenes` runs when the scene selector is not select-all and
`includeDependencies` is set, and `populateGalleryImages` runs when the image
selector is not select-all; then the seven pools run in the fixed source
order. -/
def txnBodyTrace (t : ExportTask) : List Event :=
  (if !t.full then
    (if !t.scenes.all && t.includeDependencies then [Event.popMovieScenes] else []) ++
    (if !t.images.all then [Event.popGalleryImages] else [])
  else []) ++
  [Event.poolScenes, Event.poolImages, Event.poolGalleries, Event.poolMovies,
   Event.poolPerformers, Event.poolStudios, Event.poolTags]

/-- One scene row together with the outcome of each fallible step its export
worker performs (`exportScene`, task_export.go:478-592). A `...Ok` flag is
`false` exactly when the corresponding repository/serialization call returns
an error for this scene. -/
structure SceneItem where
  id : Int
  loadRelOk : Bool
  basicJSONOk : Bool
  files : List String
  studioNameOk : Bool
  galleriesOk : Bool
  galleryIds : List Int
  performersOk : Bool
  performerIds : List Int
  tagNamesOk : Bool
  markersOk : Bool
  moviesJSONOk : Bool
  studioId : Option Int
  depTagsOk : Bool
  depTagIds : List Int
  depMoviesOk : Bool
  depMovieIds : List Int
  saveOk : Bool
  docName : String
deriving DecidableEq, Repr

/-- The dependency-accumulation block of `exportScene`
(task_export.go:559-581), run only when `includeDependencies` is set: appends
the scene's studio, gallery, tag, movie and performer ids into the other
selectors. The two fallible id fetches inside it (`GetDependentTagIDs`,
`GetDependentMovieIDs`) are handled by the caller. -/
def sceneAppendStudioGalleries (t : ExportTask) (s : SceneItem) : ExportTask :=
  let t1 := match s.studioId with
    | some sid => { t with studios := { t.studios with IDs := AppendUnique t.studios.IDs sid } }
    | none => t
  { t1 with galleries := { t1.galleries with IDs := s.galleryIds.foldl AppendUnique t1.galleries.IDs } }

/-- `exportScene`'s per-item body (task_export.go:490-591), as a function from
the task state and one queued scene to the updated task state and the list of
files written for that scene. An error in `LoadRelationships`
(task_export.go:493-495) is logged only — the body continues; an error in any
of the later build steps hits a `continue` and the item is skipped; the file
side-documents are written (task_export.go:503-506) right after the basic
JSON succeeds, before the remaining build steps; the scene document itself is
written only if every build step and the final save succeed. -/
def exportSceneItem (t : ExportTask) (s : SceneItem) : ExportTask × List Write :=
  -- s.LoadRelationships: on error, logged, no skip
  if !s.basicJSONOk then (t, [])
  else
    let fileWrites : List Write := s.files.map (fun fn => (JDir.files, fn))
    if !s.studioNameOk then (t, fileWrites)
    else if !s.galleriesOk then (t, fileWrites)
    else if !s.performersOk then (t, fileWrites)
    else if !s.tagNamesOk then (t, fileWrites)
    else if !s.markersOk then (t, fileWrites)
    else if !s.moviesJSONOk then (t, fileWrites)
    else
      let finish := fun (t' : ExportTask) =>
        (t', fileWrites ++ (if s.saveOk then [(JDir.scenes, s.docName)] else []))
      if t.includeDependencies then
        let t1 := sceneAppendStudioGalleries t s
        if !s.depTagsOk then (t1, fileWrites)
        else
          let t2 := { t1 with tags := { t1.tags with IDs := s.depTagIds.foldl AppendUnique t1.tags.IDs } }
          if !s.depMoviesOk then (t2, fileWrites)
          else
            let t3 := { t2 with movies := { t2.movies with IDs := s.depMovieIds.foldl AppendUnique t2.movies.IDs } }
            let t4 := { t3 with performers := { t3.performers with IDs := s.performerIds.foldl AppendUnique t3.performers.IDs } }
            finish t4
      else finish t

/-- The worker drain loop of the scene pool: every queued scene is processed
in turn by `exportSceneItem`; the loop itself never stops early
(task_export.go:490, `for s := range jobChan`). -/
def exportSceneJobs (t : ExportTask) : List SceneItem → ExportTask × List Write
  | [] => (t, [])
  | s :: rest =>
    let r1 := exportSceneItem t s
    let r2 := exportSceneJobs r1.1 rest
    (r2.1, r1.2 ++ r2.2)

/-- The item-list resolution of `ExportScenes` (task_export.go:350-361): fetch
all rows when `full` or `selectAll`; else the selected rows when the id set is
non-empty; else nothing. A fetch error is logged and leaves the item list
empty. `allF` and `findManyF` stand for the external repository calls
`sceneReader.All` and `sceneReader.FindMany`. -/
def fetchedScenes (t : ExportTask) (allF : Except String (List SceneItem))
    (findManyF : List Int → Except String (List SceneItem)) : List SceneItem :=
  if t.full || t.scenes.all then
    match allF with
    | .ok l => l
    | .error _ => []
  else if 0 < t.scenes.IDs.length then
    match findManyF t.scenes.IDs with
    | .ok l => l
    | .error _ => []
  else []

/-- `ExportScenes` (task_export.go:345-386): resolve the item list, then drain
it through the scene workers. Returns the updated task state and the files
written. -/
def ExportScenes (t : ExportTask) (allF : Except String (List SceneItem))
    (findManyF : List Int → Except String (List SceneItem)) : ExportTask × List Write :=
  exportSceneJobs t (fetchedScenes t allF findManyF)

/-- One movie row with the outcomes of its worker's fallible steps
(`exportMovie`, task_export.go:1102-1129). -/
structure MovieItem where
  id : Int
  studioId : Option Int
  toJSONOk : Bool
  saveOk : Bool
  docName : String
deriving DecidableEq, Repr

/-- `exportMovie`'s per-item body (task_export.go:1109-1128): an error in
`movie.ToJSON` skips the item; when `includeDependencies` is set the movie's
studio id is appended; the document is written if the save succeeds. -/
def exportMovieItem (t : ExportTask) (m : MovieItem) : ExportTask × List Write :=
  if !m.toJSONOk then (t, [])
  else
    let t1 := if t.includeDependencies then
        match m.studioId with
        | some sid => { t with studios := { t.studios with IDs := AppendUnique t.studios.IDs sid } }
        | none => t
      else t
    (t1, if m.saveOk then [(JDir.movies, m.docName)] else [])

/-- The worker drain loop of the movie pool. -/
def exportMovieJobs (t : ExportTask) : List MovieItem → ExportTask × List Write
  | [] => (t, [])
  | m :: rest =>
    let r1 := exportMovieItem t m
    let r2 := exportMovieJobs r1.1 rest
    (r2.1, r1.2 ++ r2.2)

/-- The item-list resolution of `ExportMovies` (task_export.go:1065-1077),
with the same all / explicit-ids / nothing structure as the scene pool. -/
def fetchedMovies (t : ExportTask) (allF : Except String (List MovieItem))
    (findManyF : List Int → Except String (List MovieItem)) : List MovieItem :=
  if t.full || t.movies.all then
    match allF with
    | .ok l => l
    | .error _ => []
  else if 0 < t.movies.IDs.length then
    match findManyF t.movies.IDs with
    | .ok l => l
    | .error _ => []
  else []

/-- `ExportMovies` (task_export.go:1062-1101). -/
def ExportMovies (t : ExportTask) (allF : Except String (List MovieItem))
    (findManyF : List Int → Except String (List MovieItem)) : ExportTask × List Write :=
  exportMovieJobs t (fetchedMovies t allF findManyF)

/-- One gallery row as seen by `populateGalleryImages`: its id and whether its
`LoadFiles` call succeeds (task_export.go:327-331). -/
structure GalleryRow where
  id : Int
  loadFilesOk : Bool
deriving DecidableEq, Repr

/-- The external repository calls used by the two pre-expansions of the
transaction body: movie fetches with the per-movie scene lookup
(`FindByMovieID`), and gallery fetches with the per-gallery image lookup
(`FindByGalleryID`). Movies are represented by their ids, which is all
`populateMovieScenes` reads from them. -/
structure ExpandEnv where
  allMovies : Except String (List Int)
  findManyMovies : List Int → Except String (List Int)
  scenesByMovie : Int → Except String (List Int)
  allGalleries : Except String (List GalleryRow)
  findManyGalleries : List Int → Except String (List GalleryRow)
  imagesByGallery : Int → Except String (List Int)

/-- `populateMovieScenes` (task_export.go:278-307): resolve the movies in
scope (all when `full` or the movie selector is select-all, else the selected
ids when non-empty, else none; a fetch error is logged and leaves the list
empty), then for each movie append its scenes' ids into the scene selector; a
per-movie scene-lookup error skips that movie. -/
def populateMovieScenes (t : ExportTask) (env : ExpandEnv) : ExportTask :=
  let movies : List Int :=
    if t.full || t.movies.all then
      match env.allMovies with
      | .ok l => l
      | .error _ => []
    else if 0 < t.movies.IDs.length then
      match env.findManyMovies t.movies.IDs with
      | .ok l => l
      | .error _ => []
    else []
  let newIds := movies.foldl (fun acc m =>
    match env.scenesByMovie m with
    | .error _ => acc
    | .ok ss => ss.foldl AppendUnique acc) t.scenes.IDs
  { t with scenes := { t.scenes with IDs := newIds } }

/-- `populateGalleryImages` (task_export.go:309-343): resolve the galleries in
scope the same way, then for each gallery append its images' ids into the
image selector; a per-gallery `LoadFiles` or image-lookup error skips that
gallery. -/
def populateGalleryImages (t : ExportTask) (env : ExpandEnv) : ExportTask :=
  let galleries : List GalleryRow :=
    if t.full || t.galleries.all then
      match env.allGalleries with
      | .ok l => l
      | .error _ => []
    else if 0 < t.galleries.IDs.length then
      match env.findManyGalleries t.galleries.IDs with
      | .ok l => l
      | .error _ => []
    else []
  let newIds := galleries.foldl (fun acc g =>
    if !g.loadFilesOk then acc
    else
      match env.imagesByGallery g.id with
      | .error _ => acc
      | .ok is => is.foldl AppendUnique acc) t.images.IDs
  { t with images := { t.images with IDs := newIds } }

/-- The pre-expansion block at the start of the transaction body
(task_export.go:152-163): only for a non-full export, `populateMovieScenes`
when the scene selector is not select-all and `includeDependencies` is set,
then `populateGalleryImages` whenever the image selector is not select-all. -/
def txnPreExpansion (t : ExportTask) (env : ExpandEnv) : ExportTask :=
  if !t.full then
    let t1 := if !t.scenes.all && t.includeDependencies then populateMovieScenes t env else t
    if !t1.images.all then populateGalleryImages t1 env else t1
  else t

/-- `zipFiles` (task_export.go:213-230): walk the seven entity-type output
directories — tags, galleries, performers, studios, movies, scenes, images,
in source order — and add one archive entry per regular file, at the
directory's relative name joined with the file's base name (`zipFile`,
task_export.go:253-276). An entry is modelled as the pair (entry directory,
base name); `walkEntries` models one `walkWarn`/`zipWalkFunc` pass over one
directory of the output tree. -/
def walkEntries (tree : List Write) (d : JDir) : List (String × String) :=
  (tree.filter (fun w => decide (w.1 = d))).map (fun w => (relDirName d, w.2))

/-- The archive contents produced by `zipFiles` (task_export.go:213-230) for a
given output tree. `zipFiles` itself always returns nil: walk errors are only
warned about (`walkWarn`, task_export.go:233-237). -/
def zipFiles (tree : List Write) : List (String × String) :=
  walkEntries tree JDir.tags ++ walkEntries tree JDir.galleries ++
  walkEntries tree JDir.performers ++ walkEntries tree JDir.studios ++
  walkEntries tree JDir.movies ++ walkEntries tree JDir.scenes ++
  walkEntries tree JDir.images

/-- The external steps of `generateDownload` (task_export.go:189-211): the
downloads-directory creation, the temp zip-file creation (yielding the zip's
name), and the download registration (yielding the download hash). -/
structure DownloadEnv where
  ensureDirOk : Bool
  createTempZip : Except String String
  registerFile : String → Except String String

/-- `generateDownload` (task_export.go:189-211): ensure the downloads
directory, create the temp zip file, write the archive (`zipFiles`, which
never fails), then register it, returning the download hash. The first
failing step aborts with its error. -/
def generateDownload (denv : DownloadEnv) : Except String String :=
  if !denv.ensureDirOk then .error "error ensuring downloads directory"
  else
    match denv.createTempZip with
    | .error e => .error e
    | .ok zname =>
      match denv.registerFile zname with
      | .error e => .error e
      | .ok hash => .ok hash

/-- Whether `generateDownload` gets as far as creating the zip archive on
disk: the downloads directory was ensured and the temp zip file was created
(`zipFiles` itself never fails, so the archive is then written even if the
later download registration fails). -/
def archiveCreatedFlag (denv : DownloadEnv) : Bool :=
  denv.ensureDirOk &&
    (match denv.createTempZip with
     | .ok _ => true
     | .error _ => false)

/-- The observable outcome of one run of `Start` (task_export.go:114-187). -/
structure StartResult where
  txnRan : Bool
  txnErrorLogged : Bool
  archiveCreated : Bool
  downloadHash : Option String
  completedLog : Bool
deriving DecidableEq, Repr

/-- The top-level control flow of `Start` (task_export.go:114-187): choose the
base directory (the permanent metadata path when `full`, else a fresh temp
directory whose allocation may fail and then aborts); abort when the base
directory is empty; run the transaction — `txnErr` is the result of the
enclosing `WithTxn` call, and on failure it is logged as a warning and
execution continues (task_export.go:175-177); then, for a non-full export,
run `generateDownload`, whose failure aborts before the final completion log.
-/
def StartModel (t : ExportTask) (metadataPath : String)
    (tempDir : Except String String) (txnErr : Option String)
    (denv : DownloadEnv) : StartResult :=
  let baseDirResult : Except String String :=
    if t.full then .ok metadataPath else tempDir
  match baseDirResult with
  | .error _ =>
    { txnRan := false, txnErrorLogged := false, archiveCreated := false,
      downloadHash := none, completedLog := false }
  | .ok baseDir =>
    if baseDir = "" then
      { txnRan := false, txnErrorLogged := false, archiveCreated := false,
        downloadHash := none, completedLog := false }
    else
      let txnLogged := txnErr.isSome
      if t.full then
        { txnRan := true, txnErrorLogged := txnLogged, archiveCreated := false,
          downloadHash := none, completedLog := true }
      else
        match generateDownload denv with
        | .error _ =>
          { txnRan := true, txnErrorLogged := txnLogged,
            archiveCreated := archiveCreatedFlag denv,
            downloadHash := none, completedLog := false }
        | .ok h =>
          { txnRan := true, txnErrorLogged := txnLogged,
            archiveCreated := archiveCreatedFlag denv,
            downloadHash := some h, completedLog := true }

/-- A scene item for which every fallible worker step succeeds. -/
def itemOk (s : SceneItem) : Bool :=
  s.loadRelOk && s.basicJSONOk && s.studioNameOk && s.galleriesOk && s.performersOk &&
  s.tagNamesOk && s.markersOk && s.moviesJSONOk && s.depTagsOk && s.depMoviesOk && s.saveOk

theorem itemOk_iff (s : SceneItem) : itemOk s = true ↔
    (s.loadRelOk = true ∧ s.basicJSONOk = true ∧ s.studioNameOk = true ∧
     s.galleriesOk = true ∧ s.performersOk = true ∧ s.tagNamesOk = true ∧
     s.markersOk = true ∧ s.moviesJSONOk = true ∧ s.depTagsOk = true ∧
     s.depMoviesOk = true ∧ s.saveOk = true) := by
  simp [itemOk, Bool.and_eq_true, and_assoc]

/-- The scene documents among a list of writes: the files written into the
scenes output directory. -/
def sceneDocs (ws : List Write) : List Write :=
  ws.filter (fun w => decide (w.1 = JDir.scenes))

theorem sceneDocs_append (a b : List Write) :
    sceneDocs (a ++ b) = sceneDocs a ++ sceneDocs b := by
  simp [sceneDocs]

theorem sceneDocs_fileWrites (fns : List String) :
    sceneDocs (fns.map (fun fn => ((JDir.files, fn) : Write))) = [] := by
  induction fns with
  | nil => rfl
  | cons a l ih => simp_all [sceneDocs, List.filter]

/-- A fully successful scene item contributes exactly its one scene document
to the scenes directory, whatever the current task state. -/
theorem sceneDocs_exportSceneItem_ok (t : ExportTask) (s : SceneItem)
    (h : itemOk s = true) :
    sceneDocs (exportSceneItem t s).2 = [(JDir.scenes, s.docName)] := by
  obtain ⟨_, h2, h3, h4, h5, h6, h7, h8, h9, h10, h11⟩ := (itemOk_iff s).1 h
  cases hd : t.includeDependencies <;>
    simp [exportSceneItem, h2, h3, h4, h5, h6, h7, h8, h9, h10, h11, hd,
      sceneDocs_append, sceneDocs_fileWrites, sceneDocs]

/-- A scene item whose basic-JSON build fails writes nothing at all: the
`continue` at task_export.go:498-501 fires before any file is written. -/
theorem exportSceneItem_badBasic (t : ExportTask) (s : SceneItem)
    (h : s.basicJSONOk = false) : (exportSceneItem t s).2 = [] := by
  simp [exportSceneItem, h]

theorem exportSceneJobs_append (t : ExportTask) (a b : List SceneItem) :
    exportSceneJobs t (a ++ b) =
      ((exportSceneJobs (exportSceneJobs t a).1 b).1,
       (exportSceneJobs t a).2 ++ (exportSceneJobs (exportSceneJobs t a).1 b).2) := by
  induction a generalizing t with
  | nil => simp [exportSceneJobs]
  | cons s rest ih => simp [exportSceneJobs, ih]

/-- Draining a queue of fully successful scene items produces exactly one
scene document per item. -/
theorem sceneDocs_jobs_allOk (t : ExportTask) (l : List SceneItem)
    (h : ∀ s ∈ l, itemOk s = true) :
    (sceneDocs (exportSceneJobs t l).2).length = l.length := by
  induction l generalizing t with
  | nil => rfl
  | cons s rest ih =>
    have hs := h s (List.mem_cons_self s rest)
    have hrest : ∀ x ∈ rest, itemOk x = true := fun x hx => h x (List.mem_cons_of_mem s hx)
    simp [exportSceneJobs, sceneDocs_append, sceneDocs_exportSceneItem_ok _ _ hs,
      ih _ hrest]

/-- C3 (claim, as stated): in every partial export the movie-to-scene
pre-expansion runs exactly when `includeDependencies` is set and the scene
selector is not select-all, the gallery-to-image pre-expansion runs exactly
when the image selector is not select-all (regardless of
`includeDependencies`), and neither runs for a full export. -/
theorem C3_preexpansion_gating (t : ExportTask) :
    (Event.popMovieScenes ∈ txnBodyTrace t ↔
      (t.full = false ∧ t.includeDependencies = true ∧ t.scenes.all = false)) ∧
    (Event.popGalleryImages ∈ txnBodyTrace t ↔
      (t.full = false ∧ t.images.all = false)) := by
  cases hf : t.full <;> cases hd : t.includeDependencies <;>
    cases hs : t.scenes.all <;> cases hi : t.images.all <;>
      simp [txnBodyTrace, hf, hd, hs, hi]

/-- C8 (claim, as stated): the transaction body is the pre-expansion steps
followed by the seven pools run one after another in the fixed source order
scenes, images, galleries, movies, performers, studios, tags; every
pre-expansion step precedes every pool. -/
theorem C8_txn_order (t : ExportTask) :
    ∃ pre, txnBodyTrace t =
        pre ++ [Event.poolScenes, Event.poolImages, Event.poolGalleries,
                Event.poolMovies, Event.poolPerformers, Event.poolStudios,
                Event.poolTags] ∧
      ∀ e ∈ pre, e = Event.popMovieScenes ∨ e = Event.popGalleryImages := by
  refine ⟨_, rfl, ?_⟩
  intro e he
  split at he
  · rcases List.mem_append.1 he with h | h <;> split at h <;> simp_all
  · simp at he

theorem mem_AppendUnique (l : List Int) (x y : Int) :
    x ∈ AppendUnique l y ↔ (x ∈ l ∨ x = y) := by
  unfold AppendUnique
  split
  · rename_i hy
    constructor
    · exact Or.inl
    · rintro (h | rfl)
      · exact h
      · exact hy
  · simp [List.mem_append]

theorem populateGalleryImages_scenes (t : ExportTask) (env : ExpandEnv) :
    (populateGalleryImages t env).scenes = t.scenes := rfl

/-- C9 (claim, as stated): with one movie `M` in scope through an explicit
movie selector and `M`'s scenes being `{s1, s2}`: when `includeDependencies`
is off the pre-expansion leaves the scene selector untouched; when it is on
and the scene selector is not select-all, the scene id set after the
pre-expansion is exactly the deduplicated union of the explicitly requested
scene ids with `{s1, s2}`. -/
theorem C9_movie_scene_closure (t : ExportTask) (env : ExpandEnv) (M s1 s2 : Int)
    (hfull : t.full = false)
    (hmoviesAll : t.movies.all = false)
    (hmovies : t.movies.IDs = [M])
    (hfind : env.findManyMovies [M] = .ok [M])
    (hscenes : env.scenesByMovie M = .ok [s1, s2]) :
    (t.includeDependencies = false → (txnPreExpansion t env).scenes = t.scenes) ∧
    (t.includeDependencies = true → t.scenes.all = false →
      ∀ x, x ∈ (txnPreExpansion t env).scenes.IDs ↔
        (x ∈ t.scenes.IDs ∨ x = s1 ∨ x = s2)) := by
  constructor
  · intro hdep
    have hsimp : txnPreExpansion t env =
        if !t.images.all then populateGalleryImages t env else t := by
      simp [txnPreExpansion, hfull, hdep]
    rw [hsimp]
    split
    · exact populateGalleryImages_scenes t env
    · rfl
  · intro hdep hsall x
    unfold txnPreExpansion
    simp only [hfull, Bool.not_false, if_true]
    have hcond : (!t.scenes.all && t.includeDependencies) = true := by
      simp [hsall, hdep]
    rw [if_pos hcond]
    have hpop : (populateMovieScenes t env).scenes.IDs =
        AppendUnique (AppendUnique t.scenes.IDs s1) s2 := by
      unfold populateMovieScenes
      simp [hfull, hmoviesAll, hmovies, hfind, hscenes, List.foldl]
    have hgal : ∀ t' : ExportTask,
        (if !t'.images.all then populateGalleryImages t' env else t').scenes = t'.scenes := by
      intro t'
      split
      · exact populateGalleryImages_scenes t' env
      · rfl
    rw [hgal, hpop, mem_AppendUnique, mem_AppendUnique]
    tauto

/-- C10 (claim, as stated): `newExportSpec` maps a nil input to the empty
selector; id strings that do not parse as integers contribute nothing, so an
input whose id strings are all non-numeric yields an empty id set, and (with
no `all` flag set and no full export) the corresponding pool then fetches
zero items. -/
theorem C10_newExportSpec (t : ExportTask)
    (allF : Except String (List SceneItem))
    (findManyF : List Int → Except String (List SceneItem)) :
    (newExportSpec none = { IDs := [], all := false }) ∧
    (∀ inp : ExportObjectTypeInput, (∀ s ∈ inp.Ids, parseIntString s = none) →
      (newExportSpec (some inp)).IDs = []) ∧
    (∀ inp : ExportObjectTypeInput, (∀ s ∈ inp.Ids, parseIntString s = none) →
      inp.All = none → t.full = false → t.scenes = newExportSpec (some inp) →
      fetchedScenes t allF findManyF = []) := by
  have hids : ∀ inp : ExportObjectTypeInput, (∀ s ∈ inp.Ids, parseIntString s = none) →
      (newExportSpec (some inp)).IDs = [] := by
    intro inp h
    simp only [newExportSpec, StringSliceToIntSlice]
    exact List.filterMap_eq_nil_iff.2 h
  refine ⟨rfl, hids, ?_⟩
  intro inp h hall hfull hsc
  have hempty : t.scenes.IDs = [] := by rw [hsc]; exact hids inp h
  have hsall : t.scenes.all = false := by
    rw [hsc]; simp [newExportSpec, hall]
  simp [fetchedScenes, hfull, hsall, hempty]

/-- Closed instance of `C10_newExportSpec`: a selector built from the
non-numeric id strings "abc" and "12x" has an empty id set and fetches zero
scenes. -/
theorem C10_newExportSpec_witness :
    (newExportSpec (some { Ids := ["abc", "12x"], All := none })).IDs = [] ∧
    fetchedScenes
      { full := false, includeDependencies := false,
        scenes := newExportSpec (some { Ids := ["abc", "12x"], All := none }),
        images := { IDs := [], all := false }, performers := { IDs := [], all := false },
        movies := { IDs := [], all := false }, tags := { IDs := [], all := false },
        studios := { IDs := [], all := false }, galleries := { IDs := [], all := false } }
      (.ok []) (fun _ => .ok []) = [] := by
  constructor
  · exact (C10_newExportSpec
      { full := false, includeDependencies := false,
        scenes := { IDs := [], all := false },
        images := { IDs := [], all := false }, performers := { IDs := [], all := false },
        movies := { IDs := [], all := false }, tags := { IDs := [], all := false },
        studios := { IDs := [], all := false }, galleries := { IDs := [], all := false } }
      (.ok []) (fun _ => .ok [])).2.1
      { Ids := ["abc", "12x"], All := none } (by decide)
  · exact (C10_newExportSpec _ (.ok []) (fun _ => .ok [])).2.2
      { Ids := ["abc", "12x"], All := none } (by decide) rfl rfl rfl

/-- C4 (claim, as stated): a pool's item list is every row when `full` or the
type's select-all flag is set (and then, for scenes, one document is produced
per row when every row exports cleanly); exactly the selected rows when the
id set is non-empty; and zero items — and zero documents — when the id set is
empty and select-all is off, without this being an error (the pool still
returns normally). Stated for the scene pool (the cited source) and, for the
item-list resolution, also for the movie pool. -/
theorem C4_pool_resolution (t : ExportTask) (db : List SceneItem) (dbM : List MovieItem)
    (allF : Except String (List SceneItem))
    (findManyF : List Int → Except String (List SceneItem))
    (allFM : Except String (List MovieItem))
    (findManyFM : List Int → Except String (List MovieItem))
    (hall : allF = .ok db)
    (hfind : ∀ ids, findManyF ids = .ok (db.filter (fun s => decide (s.id ∈ ids))))
    (hallM : allFM = .ok dbM)
    (hfindM : ∀ ids, findManyFM ids = .ok (dbM.filter (fun m => decide (m.id ∈ ids))))
    (hok : ∀ s ∈ db, itemOk s = true) :
    ((t.full || t.scenes.all) = true →
      fetchedScenes t allF findManyF = db ∧
      (sceneDocs (ExportScenes t allF findManyF).2).length = db.length) ∧
    ((t.full || t.scenes.all) = false → 0 < t.scenes.IDs.length →
      fetchedScenes t allF findManyF = db.filter (fun s => decide (s.id ∈ t.scenes.IDs)) ∧
      (sceneDocs (ExportScenes t allF findManyF).2).length =
        (fetchedScenes t allF findManyF).length) ∧
    ((t.full || t.scenes.all) = false → t.scenes.IDs = [] →
      fetchedScenes t allF findManyF = [] ∧ (ExportScenes t allF findManyF).2 = []) ∧
    ((t.full || t.movies.all) = true → fetchedMovies t allFM findManyFM = dbM) ∧
    ((t.full || t.movies.all) = false → 0 < t.movies.IDs.length →
      fetchedMovies t allFM findManyFM = dbM.filter (fun m => decide (m.id ∈ t.movies.IDs))) ∧
    ((t.full || t.movies.all) = false → t.movies.IDs = [] →
      fetchedMovies t allFM findManyFM = []) := by
  refine ⟨?_, ?_, ?_, ?_, ?_, ?_⟩
  · intro h
    have hf : fetchedScenes t allF findManyF = db := by
      simp [fetchedScenes, h, hall]
    refine ⟨hf, ?_⟩
    unfold ExportScenes
    rw [hf]
    exact sceneDocs_jobs_allOk t db hok
  · intro h h2
    have hf : fetchedScenes t allF findManyF =
        db.filter (fun s => decide (s.id ∈ t.scenes.IDs)) := by
      simp [fetchedScenes, h, h2, hfind]
    refine ⟨hf, ?_⟩
    unfold ExportScenes
    rw [hf]
    exact sceneDocs_jobs_allOk t _ (fun s hs => hok s (List.mem_filter.1 hs).1)
  · intro h h3
    have hf : fetchedScenes t allF findManyF = [] := by
      simp [fetchedScenes, h, h3]
    exact ⟨hf, by unfold ExportScenes; rw [hf]; rfl⟩
  · intro h
    simp [fetchedMovies, h, hallM]
  · intro h h2
    simp [fetchedMovies, h, h2, hfindM]
  · intro h h3
    simp [fetchedMovies, h, h3]

/-- The sample entities used by the closed witness instances below. -/
def defaultSpec : exportSpec := { IDs := [], all := false }

def baseTask : ExportTask :=
  { full := false, includeDependencies := false,
    scenes := defaultSpec, images := defaultSpec, performers := defaultSpec,
    movies := defaultSpec, tags := defaultSpec, studios := defaultSpec,
    galleries := defaultSpec }

def okScene : SceneItem :=
  { id := 1, loadRelOk := true, basicJSONOk := true, files := [],
    studioNameOk := true, galleriesOk := true, galleryIds := [],
    performersOk := true, performerIds := [], tagNamesOk := true,
    markersOk := true, moviesJSONOk := true, studioId := none,
    depTagsOk := true, depTagIds := [], depMoviesOk := true, depMovieIds := [],
    saveOk := true, docName := "scene1.json" }

def okScene2 : SceneItem := { okScene with id := 2, docName := "scene2.json" }

/-- A `FindMany` implementation faithful to a fixed scene table: it returns
exactly the rows whose id is in the requested id set. -/
def findManyScenesDb (db : List SceneItem) : List Int → Except String (List SceneItem) :=
  fun ids => .ok (db.filter (fun s => decide (s.id ∈ ids)))

def findManyMoviesDb (db : List MovieItem) : List Int → Except String (List MovieItem) :=
  fun ids => .ok (db.filter (fun m => decide (m.id ∈ ids)))

def c4t : ExportTask := { baseTask with scenes := { IDs := [1], all := false } }

/-- Closed instance of `C4_pool_resolution`: with rows {1, 2} and explicit
scene selector {1}, exactly row 1 is fetched and one document is produced. -/
theorem C4_pool_resolution_witness :
    fetchedScenes c4t (.ok [okScene, okScene2]) (findManyScenesDb [okScene, okScene2]) =
      ([okScene, okScene2].filter (fun s => decide (s.id ∈ c4t.scenes.IDs))) ∧
    (sceneDocs (ExportScenes c4t (.ok [okScene, okScene2])
        (findManyScenesDb [okScene, okScene2])).2).length =
      (fetchedScenes c4t (.ok [okScene, okScene2])
        (findManyScenesDb [okScene, okScene2])).length :=
  (C4_pool_resolution c4t [okScene, okScene2] [] _ _ _ (findManyMoviesDb [])
    rfl (fun _ => rfl) rfl (fun _ => rfl) (by decide)).2.1 (by decide) (by decide)

/-- C5 (claim, as stated): when `full` is set, the scene and movie pools fetch
every row regardless of the caller-supplied per-type id sets or `all` flags,
and (for clean rows) one scene document is produced per row. -/
theorem C5_full_ignores_selectors (t : ExportTask) (dbS : List SceneItem)
    (dbM : List MovieItem)
    (fmS : List Int → Except String (List SceneItem))
    (fmM : List Int → Except String (List MovieItem))
    (hfull : t.full = true)
    (hok : ∀ s ∈ dbS, itemOk s = true) :
    fetchedScenes t (.ok dbS) fmS = dbS ∧
    (sceneDocs (ExportScenes t (.ok dbS) fmS).2).length = dbS.length ∧
    fetchedMovies t (.ok dbM) fmM = dbM := by
  have hf : fetchedScenes t (.ok dbS) fmS = dbS := by
    simp [fetchedScenes, hfull]
  refine ⟨hf, ?_, ?_⟩
  · unfold ExportScenes
    rw [hf]
    exact sceneDocs_jobs_allOk t dbS hok
  · simp [fetchedMovies, hfull]

def c5t : ExportTask :=
  { baseTask with full := true, scenes := { IDs := [1], all := false } }

/-- Closed instance of `C5_full_ignores_selectors`: a full export with a
non-empty explicit scene selector {1} still fetches both scene rows and
produces both documents. -/
theorem C5_full_ignores_selectors_witness :
    fetchedScenes c5t (.ok [okScene, okScene2]) (findManyScenesDb [okScene, okScene2]) =
      [okScene, okScene2] ∧
    (sceneDocs (ExportScenes c5t (.ok [okScene, okScene2])
        (findManyScenesDb [okScene, okScene2])).2).length = 2 ∧
    fetchedMovies c5t (.ok []) (findManyMoviesDb []) = [] :=
  C5_full_ignores_selectors c5t [okScene, okScene2] [] _ _ rfl (by decide)

/-- C7 (claim, as stated): when the initial fetch for the scene pool fails
(`All` in the select-all case, `FindMany` in the explicit-id case), the pool
proceeds with zero items and writes nothing, and the transaction body still
runs the pools of all entity types. -/
theorem C7_fetch_failure_isolation (t : ExportTask) (e : String)
    (allF : Except String (List SceneItem))
    (findManyF : List Int → Except String (List SceneItem)) :
    (allF = .error e → (t.full || t.scenes.all) = true →
      fetchedScenes t allF findManyF = [] ∧ (ExportScenes t allF findManyF).2 = []) ∧
    ((t.full || t.scenes.all) = false → 0 < t.scenes.IDs.length →
      findManyF t.scenes.IDs = .error e →
      fetchedScenes t allF findManyF = [] ∧ (ExportScenes t allF findManyF).2 = []) ∧
    (Event.poolScenes ∈ txnBodyTrace t ∧ Event.poolImages ∈ txnBodyTrace t ∧
     Event.poolGalleries ∈ txnBodyTrace t ∧ Event.poolMovies ∈ txnBodyTrace t ∧
     Event.poolPerformers ∈ txnBodyTrace t ∧ Event.poolStudios ∈ txnBodyTrace t ∧
     Event.poolTags ∈ txnBodyTrace t) := by
  refine ⟨?_, ?_, ?_⟩
  · intro he h
    have hf : fetchedScenes t allF findManyF = [] := by
      simp [fetchedScenes, he, h]
    exact ⟨hf, by unfold ExportScenes; rw [hf]; rfl⟩
  · intro h h2 he
    have hf : fetchedScenes t allF findManyF = [] := by
      simp [fetchedScenes, h, h2, he]
    exact ⟨hf, by unfold ExportScenes; rw [hf]; rfl⟩
  · simp [txnBodyTrace]

def c7t : ExportTask := { baseTask with scenes := { IDs := [], all := true } }

/-- Closed instance of `C7_fetch_failure_isolation`: a failing `All` fetch for
a select-all scene pool yields zero items and zero writes. -/
theorem C7_fetch_failure_isolation_witness :
    fetchedScenes c7t (.error "database gone") (findManyScenesDb []) = [] ∧
    (ExportScenes c7t (.error "database gone") (findManyScenesDb [])).2 = [] :=
  (C7_fetch_failure_isolation c7t "database gone" _ _).1 rfl (by decide)

/-- Whether a scene item fails at least one of the document-building steps of
`exportScene` that hit a `continue`: the basic JSON, studio name, galleries,
performers, tag names, markers and movies-JSON steps, plus — only when
`includeDependencies` is set, since only then do they run
(task_export.go:559-581) — the dependent-tag-ids and dependent-movie-ids
steps. -/
def buildFails (deps : Bool) (s : SceneItem) : Bool :=
  !s.basicJSONOk || !s.studioNameOk || !s.galleriesOk || !s.performersOk ||
  !s.tagNamesOk || !s.markersOk || !s.moviesJSONOk ||
  (deps && (!s.depTagsOk || !s.depMoviesOk))

/-- Whether `exportScene`'s body reaches the final save and the save succeeds
for a scene item, so that its document is written. -/
def producesDoc (deps : Bool) (s : SceneItem) : Bool :=
  s.basicJSONOk && s.studioNameOk && s.galleriesOk && s.performersOk &&
  s.tagNamesOk && s.markersOk && s.moviesJSONOk &&
  (!deps || (s.depTagsOk && s.depMoviesOk)) && s.saveOk

set_option maxHeartbeats 4000000 in
/-- The scene worker body writes the item's scene document exactly when every
build step it runs succeeds and the final save succeeds; any failing build
step yields no scene document. -/
theorem sceneDocs_exportSceneItem_eq (t : ExportTask) (s : SceneItem) :
    sceneDocs (exportSceneItem t s).2 =
      (if producesDoc t.includeDependencies s = true
       then [(JDir.scenes, s.docName)] else []) := by
  rcases t with ⟨full, deps, tsc, tim, tpf, tmv, ttg, tst, tgl⟩
  rcases s with ⟨id, lr, bj, files, sn, go, gids, po, pids, tn, mk, mj, sid, dt,
    dtids, dm, dmids, so, dn⟩
  cases deps <;> cases bj <;> cases sn <;> cases go <;> cases po <;> cases tn <;>
    cases mk <;> cases mj <;> cases dt <;> cases dm <;> cases so <;>
      simp [exportSceneItem, producesDoc, sceneAppendStudioGalleries,
        sceneDocs_append, sceneDocs_fileWrites, sceneDocs]

theorem producesDoc_eq_false_of_buildFails (d : Bool) (s : SceneItem)
    (h : buildFails d s = true) : producesDoc d s = false := by
  cases hp : producesDoc d s
  · rfl
  · exfalso
    simp only [producesDoc, Bool.and_eq_true, Bool.or_eq_true, Bool.not_eq_true',
      and_assoc] at hp
    obtain ⟨hb, hsn, hg, hpo, htn, hmk, hmj, hdep, hso⟩ := hp
    simp only [buildFails, hb, hsn, hg, hpo, htn, hmk, hmj, Bool.not_true,
      Bool.false_or, Bool.or_eq_true, Bool.and_eq_true, Bool.not_eq_true'] at h
    rcases h with ⟨hd, hdd⟩
    rcases hdep with hd' | ⟨hdt, hdm⟩ <;> simp_all

set_option maxHeartbeats 2000000 in
/-- `exportScene`'s body only ever updates selector fields of the task, so
the `includeDependencies` flag it reads is invariant across items. -/
theorem exportSceneItem_includeDeps (t : ExportTask) (s : SceneItem) :
    (exportSceneItem t s).1.includeDependencies = t.includeDependencies := by
  rcases t with ⟨full, deps, tsc, tim, tpf, tmv, ttg, tst, tgl⟩
  rcases s with ⟨id, lr, bj, files, sn, go, gids, po, pids, tn, mk, mj, sid, dt,
    dtids, dm, dmids, so, dn⟩
  cases deps <;> cases bj <;> cases sn <;> cases go <;> cases po <;> cases tn <;>
    cases mk <;> cases mj <;> cases dt <;> cases dm <;> cases sid <;> rfl

theorem exportSceneJobs_includeDeps (t : ExportTask) (l : List SceneItem) :
    (exportSceneJobs t l).1.includeDependencies = t.includeDependencies := by
  induction l generalizing t with
  | nil => rfl
  | cons s rest ih =>
    simp only [exportSceneJobs]
    rw [ih, exportSceneItem_includeDeps]

def relFailScene : SceneItem := { okScene with loadRelOk := false }

/-- C6 counterexample: the claim says an error while loading a scene's
relationships causes the item to be skipped with no document written for it.
In the source, the `LoadRelationships` error (task_export.go:493-495) is only
logged — there is no `continue` — so a scene whose relationship load fails
but whose remaining steps succeed still gets its document written. -/
theorem C6_counterexample :
    relFailScene.loadRelOk = false ∧
    sceneDocs (exportSceneJobs baseTask [relFailScene]).2 =
      [(JDir.scenes, "scene1.json")] := by
  exact ⟨rfl, by decide⟩

/-- C6 (amended): any error in one of the document-building steps (basic
JSON, studio name, galleries, performers, tag names, markers, movies JSON,
or — when `includeDependencies` is set — the dependent tag/movie ids) causes
the item to be logged and skipped with no scene document written, while a
failure of the initial relationship load alone does not skip the item; one
failing item never stops the worker loop, so a queue with one item failing at
any build step and the rest fully succeeding yields exactly one document per
succeeding item. -/
theorem C6_item_failure_isolation (t : ExportTask) (pre post : List SceneItem)
    (bad : SceneItem)
    (hpre : ∀ s ∈ pre, itemOk s = true) (hpost : ∀ s ∈ post, itemOk s = true)
    (hbad : buildFails t.includeDependencies bad = true) :
    (sceneDocs (exportSceneJobs t (pre ++ bad :: post)).2).length =
      pre.length + post.length := by
  rw [exportSceneJobs_append]
  simp only [sceneDocs_append, List.length_append]
  have h1 : (sceneDocs (exportSceneJobs t pre).2).length = pre.length :=
    sceneDocs_jobs_allOk t pre hpre
  have h2 : (sceneDocs (exportSceneJobs (exportSceneJobs t pre).1
      (bad :: post)).2).length = post.length := by
    simp only [exportSceneJobs]
    have hfail : sceneDocs (exportSceneItem (exportSceneJobs t pre).1 bad).2 = [] := by
      rw [sceneDocs_exportSceneItem_eq, exportSceneJobs_includeDeps,
        producesDoc_eq_false_of_buildFails _ _ hbad]
      simp
    rw [sceneDocs_append, hfail, List.nil_append]
    exact sceneDocs_jobs_allOk _ post hpost
  rw [h1, h2]

def okScene4 : SceneItem := { okScene with id := 4, docName := "scene4.json" }

def okScene5 : SceneItem := { okScene with id := 5, docName := "scene5.json" }

def badMarkersScene : SceneItem :=
  { okScene with id := 3, markersOk := false, docName := "scene3.json" }

/-- Closed instance of `C6_item_failure_isolation`: five queued scenes of
which one fails its markers build step produce exactly four documents. -/
theorem C6_item_failure_isolation_witness :
    (sceneDocs (exportSceneJobs baseTask
      ([okScene, okScene2] ++ badMarkersScene :: [okScene4, okScene5])).2).length = 2 + 2 :=
  C6_item_failure_isolation baseTask [okScene, okScene2] [okScene4, okScene5]
    badMarkersScene (by decide) (by decide) (by decide)

theorem archiveCreatedFlag_of_generateDownload_ok (denv : DownloadEnv)
    (hsh : String) (h : generateDownload denv = .ok hsh) :
    archiveCreatedFlag denv = true := by
  cases he : denv.ensureDirOk <;> cases hc : denv.createTempZip <;>
    simp_all [generateDownload, archiveCreatedFlag]

def denvOk : DownloadEnv :=
  { ensureDirOk := true, createTempZip := .ok "export123.zip",
    registerFile := fun _ => .ok "abcd1234" }

/-- C1 counterexample: the claim says a transaction failure aborts the export
so that no archive is generated and no download handle is registered. In the
source the transaction error is only logged as a warning
(task_export.go:175-177) and execution continues, so for a partial export
with a failing transaction the archive is still created and a download hash
is still registered. -/
theorem C1_counterexample :
    baseTask.full = false ∧
    (StartModel baseTask "/metadata" (.ok "/tmp/export")
      (some "transaction failed") denvOk).archiveCreated = true ∧
    (StartModel baseTask "/metadata" (.ok "/tmp/export")
      (some "transaction failed") denvOk).downloadHash = some "abcd1234" := by
  decide

/-- C1 (amended): a transaction failure is logged as a warning but does not
abort the export: for a partial export whose download generation succeeds,
the archive is created, the download handle is registered and the task still
reaches its completion log. -/
theorem C1_txn_failure_not_fatal (t : ExportTask) (mp d hsh txnMsg : String)
    (denv : DownloadEnv)
    (hfull : t.full = false) (hd : d ≠ "")
    (hgen : generateDownload denv = .ok hsh) :
    (StartModel t mp (.ok d) (some txnMsg) denv).txnErrorLogged = true ∧
    (StartModel t mp (.ok d) (some txnMsg) denv).archiveCreated = true ∧
    (StartModel t mp (.ok d) (some txnMsg) denv).downloadHash = some hsh ∧
    (StartModel t mp (.ok d) (some txnMsg) denv).completedLog = true := by
  have harch := archiveCreatedFlag_of_generateDownload_ok denv hsh hgen
  simp [StartModel, hfull, hd, hgen, harch]

/-- Closed instance of `C1_txn_failure_not_fatal`. -/
theorem C1_txn_failure_not_fatal_witness :
    (StartModel baseTask "/metadata" (.ok "/tmp/export")
      (some "transaction failed") denvOk).txnErrorLogged = true ∧
    (StartModel baseTask "/metadata" (.ok "/tmp/export")
      (some "transaction failed") denvOk).archiveCreated = true ∧
    (StartModel baseTask "/metadata" (.ok "/tmp/export")
      (some "transaction failed") denvOk).downloadHash = some "abcd1234" ∧
    (StartModel baseTask "/metadata" (.ok "/tmp/export")
      (some "transaction failed") denvOk).completedLog = true :=
  C1_txn_failure_not_fatal baseTask "/metadata" "/tmp/export" "abcd1234"
    "transaction failed" denvOk rfl (by decide) rfl

theorem mem_walkEntries (tree : List Write) (d : JDir) (e : String × String) :
    e ∈ walkEntries tree d ↔ ∃ bn, (d, bn) ∈ tree ∧ e = (relDirName d, bn) := by
  simp only [walkEntries, List.mem_map, List.mem_filter, decide_eq_true_eq]
  constructor
  · rintro ⟨⟨d', bn⟩, ⟨hmem, hd⟩, he⟩
    simp only at hd
    subst hd
    exact ⟨bn, hmem, he.symm⟩
  · rintro ⟨bn, hmem, rfl⟩
    exact ⟨(d, bn), ⟨hmem, rfl⟩, rfl⟩

/-- The seven entity-type directories that `zipFiles` walks, in source order
(task_export.go:221-227). -/
def entityDirs : List JDir :=
  [JDir.tags, JDir.galleries, JDir.performers, JDir.studios, JDir.movies,
   JDir.scenes, JDir.images]

theorem zipFiles_mem (tree : List Write) (e : String × String) :
    e ∈ zipFiles tree ↔
      ∃ d bn, d ∈ entityDirs ∧ (d, bn) ∈ tree ∧ e = (relDirName d, bn) := by
  simp only [zipFiles, List.mem_append, mem_walkEntries]
  constructor
  · rintro ((((((h | h) | h) | h) | h) | h) | h) <;> obtain ⟨bn, hm, he⟩ := h
    · exact ⟨JDir.tags, bn, by decide, hm, he⟩
    · exact ⟨JDir.galleries, bn, by decide, hm, he⟩
    · exact ⟨JDir.performers, bn, by decide, hm, he⟩
    · exact ⟨JDir.studios, bn, by decide, hm, he⟩
    · exact ⟨JDir.movies, bn, by decide, hm, he⟩
    · exact ⟨JDir.scenes, bn, by decide, hm, he⟩
    · exact ⟨JDir.images, bn, by decide, hm, he⟩
  · rintro ⟨d, bn, hd, hm, he⟩
    fin_cases hd
    · exact Or.inl (Or.inl (Or.inl (Or.inl (Or.inl (Or.inl ⟨bn, hm, he⟩)))))
    · exact Or.inl (Or.inl (Or.inl (Or.inl (Or.inl (Or.inr ⟨bn, hm, he⟩)))))
    · exact Or.inl (Or.inl (Or.inl (Or.inl (Or.inr ⟨bn, hm, he⟩))))
    · exact Or.inl (Or.inl (Or.inl (Or.inr ⟨bn, hm, he⟩)))
    · exact Or.inl (Or.inl (Or.inr ⟨bn, hm, he⟩))
    · exact Or.inl (Or.inr ⟨bn, hm, he⟩)
    · exact Or.inr ⟨bn, hm, he⟩

/-- C2 (amended): the archive produced by `zipFiles` contains exactly the
files of the seven entity-type output directories, each entry under its
type's relative directory name; the `files`/`folders` side-document
directories are never walked, so no archive entry lies under them. -/
theorem C2_archive_layout (tree : List Write) (e : String × String) :
    (e ∈ zipFiles tree ↔
      ∃ d bn, d ∈ entityDirs ∧ (d, bn) ∈ tree ∧ e = (relDirName d, bn)) ∧
    (∀ bn, (("files", bn) : String × String) ∉ zipFiles tree ∧
           (("folders", bn) : String × String) ∉ zipFiles tree) := by
  refine ⟨zipFiles_mem tree e, ?_⟩
  intro bn
  constructor <;> intro hmem <;>
    obtain ⟨d, bn', hd, hm, he⟩ := (zipFiles_mem tree _).1 hmem <;>
    fin_cases hd <;> (injection he with h1 h2; exact absurd h1 (by decide))

def c2t : ExportTask := { baseTask with scenes := { IDs := [], all := true } }

def sceneWithFile : SceneItem := { okScene with files := ["f1.json"] }

/-- C2 counterexample: the claim says the archive contains `files`/`folders`
directories holding the side-documents written during the export. Running the
scene pool over a scene that owns one file writes the file side-document
"f1.json" into the files directory of the output tree, yet the archive
contains no entry for it (only the scene document appears): `zipFiles` never
walks the files/folders directories (task_export.go:221-227). -/
theorem C2_counterexample :
    ((JDir.files, "f1.json") : Write) ∈
      (ExportScenes c2t (.ok [sceneWithFile]) (findManyScenesDb [])).2 ∧
    (("files", "f1.json") : String × String) ∉
      zipFiles (ExportScenes c2t (.ok [sceneWithFile]) (findManyScenesDb [])).2 ∧
    (("scenes", "scene1.json") : String × String) ∈
      zipFiles (ExportScenes c2t (.ok [sceneWithFile]) (findManyScenesDb [])).2 := by
  decide

def t9 : ExportTask :=
  { baseTask with
      includeDependencies := true
      movies := { IDs := [10], all := false }
      scenes := { IDs := [100], all := false } }

def env9 : ExpandEnv :=
  { allMovies := .ok [10], findManyMovies := fun ids => .ok ids,
    scenesByMovie := fun _ => .ok [1, 2],
    allGalleries := .ok [], findManyGalleries := fun _ => .ok [],
    imagesByGallery := fun _ => .ok [] }

/-- Closed instance of `C9_movie_scene_closure`: movie 10 in scope with scenes
{1, 2}, requested scene ids {100}, `includeDependencies` on: scene id 1 is in
the final scene id set. -/
theorem C9_movie_scene_closure_witness :
    1 ∈ (txnPreExpansion t9 env9).scenes.IDs ↔
      (1 ∈ t9.scenes.IDs ∨ (1 : Int) = 1 ∨ (1 : Int) = 2) :=
  (C9_movie_scene_closure t9 env9 10 1 2 rfl rfl rfl rfl rfl).2 rfl rfl 1

end Stash
